import Mathlib

/-!
Shallow embedding of src/main/convert_to_jpg.py (class ImageConverter).

The converters are modelled as pure functions over an explicit filesystem
state (an association list from paths to file contents) together with the
list of progress lines they print.  Float samples of EXR channels are
modelled as rationals; the 8-bit quantization of the code
(np.clip(img * 255, 0, 255).astype(np.uint8)) becomes scaling, clamping
and floor on rationals.  Library calls (OpenEXR.InputFile, PIL Image.open,
Image.convert, Image.save, os.path.splitext, os.remove) are modelled by
their documented behaviour, as noted at each definition.
-/

set_option autoImplicit false

namespace ConvertToJpg

abbrev Path := String

/-- Python str.rfind for a single character: index of the last occurrence
of the character in the list, or -1 when absent. -/
def rfindChar (c : Char) (l : List Char) : Int :=
  match l.reverse.findIdx? (fun a => a == c) with
  | some i => (l.length : Int) - 1 - (i : Int)
  | none => -1

/-- Model of os.path.splitext (CPython genericpath._splitext with sep = the
slash and extsep = the dot): split off the extension at the last dot of the
final path component, unless every character of the component before that
dot is itself a dot (leading dots do not start an extension). -/
def splitext (p : Path) : Path × Path :=
  let l := p.data
  let sepIdx := rfindChar '/' l
  let dotIdx := rfindChar '.' l
  if sepIdx < dotIdx then
    let start := (sepIdx + 1).toNat
    let dn := dotIdx.toNat
    if (List.range (dn - start)).any (fun k => l.get? (start + k) != some '.') then
      (String.mk (l.take dn), String.mk (l.drop dn))
    else (p, "")
  else (p, "")

/-- Target path of both converters: os.path.splitext(path)[0] + ".jpg". -/
def jpgTarget (p : Path) : Path := (splitext p).1 ++ ".jpg"

/-- Imath.Box2i: the data window declared in the header of an EXR file. -/
structure Box2i where
  minX : Int
  minY : Int
  maxX : Int
  maxY : Int
deriving DecidableEq

/-- An EXR container as stored on disk: a data window and named channels,
each a flat buffer of float samples (modelled as rationals). -/
structure ExrContainer where
  dataWindow : Box2i
  channels : List (String × List ℚ)
deriving DecidableEq

/-- size[0] of the code: dw.max.x - dw.min.x + 1. -/
def exrWidth (c : ExrContainer) : Int := c.dataWindow.maxX - c.dataWindow.minX + 1

/-- size[1] of the code: dw.max.y - dw.min.y + 1. -/
def exrHeight (c : ExrContainer) : Int := c.dataWindow.maxY - c.dataWindow.minY + 1

/-- Modelled OpenEXR library invariant: OpenEXR.InputFile succeeds exactly
on a well-formed container.  The header sanity check of the library rejects
a degenerate data window (an extent that is not positive), and a channel
read of a valid scanline file returns exactly width * height samples. -/
def exrWellFormed (c : ExrContainer) : Bool :=
  decide (0 < exrWidth c) && decide (0 < exrHeight c) &&
    c.channels.all (fun ch => ch.2.length == (exrWidth c).toNat * (exrHeight c).toNat)

/-- A decoded PIL image: its color mode and an opaque decoded content. -/
inductive PilMode
  | RGB
  | RGBA
  | L
  | P
  | CMYK
  | otherMode
deriving DecidableEq

structure PilImage where
  mode : PilMode
  content : ℕ
deriving DecidableEq

/-- Model of PIL Image.convert with argument the string RGB: the standard
library conversion to 3-channel RGB mode (alpha flattening, palette
expansion, grayscale replication), a black-box on the pixel content. -/
def pilConvertRGB (img : PilImage) : PilImage :=
  { mode := PilMode.RGB, content := img.content }

/-- Contents a path can hold in the modelled filesystem. -/
inductive FileData
  /-- A file whose bytes are an EXR container. -/
  | exrFile (c : ExrContainer)
  /-- A file whose bytes PIL decodes as a raster image (TIF input). -/
  | tifFile (img : PilImage)
  /-- A JPEG written by the EXR converter: its 8-bit RGB raster. -/
  | jpgRaster (px : List (List (ℕ × ℕ × ℕ)))
  /-- A JPEG written by the TIF converter: the PIL image that was saved. -/
  | jpgImage (img : PilImage)
deriving DecidableEq

/-- The filesystem: an association list from paths to file contents, the
head entry shadowing later ones. -/
abbrev FS := List (Path × FileData)

def fsRead : FS → Path → Option FileData
  | [], _ => none
  | (q, d) :: rest, p => if q = p then some d else fsRead rest p

/-- Model of os.remove. -/
def fsRemove : FS → Path → FS
  | [], _ => []
  | (q, d) :: rest, p => if q = p then fsRemove rest p else (q, d) :: fsRemove rest p

/-- Model of a successful file write (Image.save): creates or silently
overwrites the target path. -/
def fsWrite (fs : FS) (p : Path) (d : FileData) : FS := (p, d) :: fsRemove fs p

/-- Errors of the conversion layer (section 7 of the spec).  All failures
the model exhibits are decode failures of the source file; they are raised
before any write to the filesystem. -/
inductive ConvError
  | decodeError
deriving DecidableEq

instance : DecidableEq (Except ConvError Path) := fun a b =>
  match a, b with
  | Except.error x, Except.error y =>
    match decEq x y with
    | isTrue h => isTrue (congrArg Except.error h)
    | isFalse h => isFalse (fun hh => h (Except.error.inj hh))
  | Except.ok x, Except.ok y =>
    match decEq x y with
    | isTrue h => isTrue (congrArg Except.ok h)
    | isFalse h => isFalse (fun hh => h (Except.ok.inj hh))
  | Except.error _, Except.ok _ => isFalse (fun hh => Except.noConfusion hh)
  | Except.ok _, Except.error _ => isFalse (fun hh => Except.noConfusion hh)

/-- np.clip(v, 0, 255). -/
def npClip255 (v : ℚ) : ℚ := min (max v 0) 255

/-- Float to uint8 conversion of .astype(np.uint8): truncation toward
zero, which on the nonnegative values produced by the clip is the floor. -/
def astypeUint8 (v : ℚ) : ℕ := (⌊v⌋).toNat

/-- The elementwise quantization of line 124 of the code:
np.clip(x * 255, 0, 255).astype(np.uint8). -/
def quantize (x : ℚ) : ℕ := astypeUint8 (npClip255 (x * 255))

/-- Written from the words of the spec, for comparison with quantize: the
per-sample value floor(clamp(x * 255, 0, 255)), quantization as scaling by
255, clamping to the interval from 0 to 255, then truncation to an
unsigned 8-bit integer. -/
def specQuantC2 (x : ℚ) : ℕ := (⌊max 0 (min (x * 255) 255)⌋).toNat

/-- Lines 113 to 119 of the code: the buffer used for a required channel
name.  file.channel(color) returns the flat sample buffer when the name is
in the channel list of the header; otherwise
np.zeros(size[0] * size[1], dtype=np.float32) synthesizes a zero buffer. -/
def exrChannelBuf (c : ExrContainer) (color : String) : List ℚ :=
  match c.channels.find? (fun e => e.1 == color) with
  | some e => e.2
  | none => List.replicate ((exrWidth c).toNat * (exrHeight c).toNat) 0

/-- numpy reshape of a flat buffer to the shape (nrows, ncols): row i is
the slice of length ncols starting at i * ncols. -/
def reshapeGrid (nrows ncols : ℕ) (buf : List ℚ) : List (List ℚ) :=
  (List.range nrows).map (fun i => (buf.drop (i * ncols)).take ncols)

/-- Lines 123 and 124 of the code: np.stack([r, g, b], axis=-1) followed by
the elementwise quantization, on three grids of equal shape. -/
def stackQuant (r g b : List (List ℚ)) : List (List (ℕ × ℕ × ℕ)) :=
  (r.zip (g.zip b)).map (fun rw =>
    (rw.1.zip (rw.2.1.zip rw.2.2)).map (fun v =>
      (quantize v.1, quantize v.2.1, quantize v.2.2)))

/-- The in-memory 8-bit raster the EXR converter saves, lines 110 to 124:
each channel buffer is reshaped with im.reshape(size), where
size = (width, height), so the grids have width rows of height columns. -/
def exrRaster (c : ExrContainer) : List (List (ℕ × ℕ × ℕ)) :=
  let w := (exrWidth c).toNat
  let h := (exrHeight c).toNat
  let r := reshapeGrid w h (exrChannelBuf c "R")
  let g := reshapeGrid w h (exrChannelBuf c "G")
  let b := reshapeGrid w h (exrChannelBuf c "B")
  stackQuant r g b

/-- The progress line printed by both converters. -/
def progressLine (p : Path) : String := "\t | " ++ p ++ " has been converted."

/-- The Python default of the remove_original parameter of both
converters. -/
def removeOriginalDefault : Bool := false

/-- Model of ImageConverter.convert_exr_to_jpg (lines 100 to 135).  Returns
the filesystem after the call, the printed lines, and either the returned
target path or the propagated exception.  OpenEXR.InputFile raises (a
DecodeError in the taxonomy of the spec) when the path has no EXR content
or the container fails the header sanity check; that happens before any
write, so the filesystem is returned unchanged on error. -/
def convert_exr_to_jpg (fs : FS) (exr_path : Path) (remove_original : Bool) :
    FS × List String × Except ConvError Path :=
  match fsRead fs exr_path with
  | some (FileData.exrFile c) =>
    if exrWellFormed c then
      let img := exrRaster c
      let jpg_path := jpgTarget exr_path
      let fs1 := fsWrite fs jpg_path (FileData.jpgRaster img)
      let fs2 := if remove_original then fsRemove fs1 exr_path else fs1
      (fs2, [progressLine exr_path], Except.ok jpg_path)
    else (fs, [], Except.error ConvError.decodeError)
  | _ => (fs, [], Except.error ConvError.decodeError)

/-- Lines 141 and 142 of the code: if image.mode is not RGB, convert the
image to RGB; otherwise keep it unchanged. -/
def tifToRGB (image : PilImage) : PilImage :=
  if image.mode ≠ PilMode.RGB then pilConvertRGB image else image

/-- Model of ImageConverter.convert_tif_to_jpg (lines 138 to 150).  PIL
Image.open decodes a file holding raster content (it sniffs the content,
so a PIL-decodable file succeeds whatever its extension) and raises on
anything else; PIL has no EXR codec.  Reopening a JPEG previously written
by the EXR path is not modelled (no claim exercises it). -/
def convert_tif_to_jpg (fs : FS) (tif_path : Path) (remove_original : Bool) :
    FS × List String × Except ConvError Path :=
  match fsRead fs tif_path with
  | some (FileData.tifFile image0) =>
    let image := tifToRGB image0
    let jpg_path := jpgTarget tif_path
    let fs1 := fsWrite fs jpg_path (FileData.jpgImage image)
    let fs2 := if remove_original then fsRemove fs1 tif_path else fs1
    (fs2, [progressLine tif_path], Except.ok jpg_path)
  | _ => (fs, [], Except.error ConvError.decodeError)

/-- The global format choice of the radio buttons. -/
inductive SrcType
  | exr
  | tif
deriving DecidableEq

/-- The dispatch inside the loop of ImageConverter.run (lines 172 to 178). -/
def convertOne (st : SrcType) (fs : FS) (p : Path) (flag : Bool) :
    FS × List String × Except ConvError Path :=
  match st with
  | SrcType.exr => convert_exr_to_jpg fs p flag
  | SrcType.tif => convert_tif_to_jpg fs p flag

/-- The loop of ImageConverter.run: files are processed one at a time in
list order; an exception from a conversion propagates and aborts the rest
of the batch (no try/except in the source). -/
def runFiles (st : SrcType) (flag : Bool) : FS → List Path → FS × List String × Option ConvError
  | fs, [] => (fs, [], none)
  | fs, p :: rest =>
    match convertOne st fs p flag with
    | (fsE, logE, Except.error e) => (fsE, logE, some e)
    | (fs1, log1, Except.ok _) =>
      match runFiles st flag fs1 rest with
      | (fs2, log2, err) => (fs2, log1 ++ log2, err)

/-- Model of ImageConverter.run (lines 161 to 180): prints a header line,
then runs the loop.  The message boxes and the dependency uninstall are
GUI and process side effects outside the filesystem model. -/
def run (st : SrcType) (flag : Bool) (fs : FS) (files : List Path) :
    FS × List String × Option ConvError :=
  match runFiles st flag fs files with
  | (fs2, log, err) => (fs2, "\n Converting images:" :: log, err)

/-! Concrete inputs used to instantiate the theorems below. -/

/-- A 2 by 1 EXR (width 2, height 1): dataWindow from (0, 0) to (1, 0),
one scanline of two pixels, R samples 1 then 0. -/
def cWide : ExrContainer :=
  { dataWindow := { minX := 0, minY := 0, maxX := 1, maxY := 0 },
    channels := [("R", [1, 0]), ("G", [0, 0]), ("B", [0, 0])] }

/-- An EXR whose data window has maxX = minX - 1, a degenerate extent of
width 0. -/
def cDeg : ExrContainer :=
  { dataWindow := { minX := 0, minY := 0, maxX := -1, maxY := 0 },
    channels := [] }

/-- A 1 by 1 EXR with no B channel in the channel list. -/
def cNoB : ExrContainer :=
  { dataWindow := { minX := 0, minY := 0, maxX := 0, maxY := 0 },
    channels := [("R", [1]), ("G", [0])] }

/-- A 1 by 1 EXR whose only channel is G (R and B absent). -/
def cOnlyG : ExrContainer :=
  { dataWindow := { minX := 0, minY := 0, maxX := 0, maxY := 0 },
    channels := [("G", [0])] }

/-- A 1 by 1 EXR whose only channel is R (G and B absent). -/
def cOnlyR : ExrContainer :=
  { dataWindow := { minX := 0, minY := 0, maxX := 0, maxY := 0 },
    channels := [("R", [1])] }

/-- A 1 by 1 EXR with all three of R, G, B present. -/
def cFull : ExrContainer :=
  { dataWindow := { minX := 0, minY := 0, maxX := 0, maxY := 0 },
    channels := [("R", [1]), ("G", [0]), ("B", [0])] }

/-- A decoded TIF carrying an alpha channel. -/
def tifAlpha : PilImage := { mode := PilMode.RGBA, content := 9 }

/-- A decoded TIF already in 3-channel RGB mode. -/
def tifRgb : PilImage := { mode := PilMode.RGB, content := 7 }

/-- A one-file filesystem used to instantiate the batch theorems. -/
def fsBatch : FS := [("a.tif", FileData.tifFile tifRgb)]

/-- The state of fsBatch after converting a.tif. -/
def fsBatch1 : FS := fsWrite fsBatch "a.jpg" (FileData.jpgImage (tifToRGB tifRgb))

/-! Helper lemmas shared by the claim theorems. -/

theorem string_mk_append (a b : List Char) : String.mk a ++ String.mk b = String.mk (a ++ b) := rfl

theorem splitext_append (p : Path) : (splitext p).1 ++ (splitext p).2 = p := by
  simp only [splitext]
  split
  · split
    · rw [string_mk_append, List.take_append_drop]
    · exact String.append_empty p
  · exact String.append_empty p

theorem jpgTarget_of_splitext (p : Path) (r e : Path) (h : splitext p = (r, e)) :
    p = r ++ e ∧ jpgTarget p = r ++ ".jpg" := by
  constructor
  · conv_lhs => rw [← splitext_append p]
    rw [h]
  · unfold jpgTarget
    rw [h]

theorem jpgTarget_of_ext_jpg (p : Path) (h : (splitext p).2 = ".jpg") : jpgTarget p = p := by
  unfold jpgTarget
  conv_rhs => rw [← splitext_append p]
  rw [h]

theorem fsRead_fsRemove_self (fs : FS) (p : Path) : fsRead (fsRemove fs p) p = none := by
  induction fs with
  | nil => rfl
  | cons hd tl ih =>
    obtain ⟨a, d⟩ := hd
    by_cases hap : a = p
    · simpa [fsRemove, hap] using ih
    · simp [fsRemove, hap, fsRead, ih]

theorem fsRead_fsRemove_ne (fs : FS) (p q : Path) (h : q ≠ p) :
    fsRead (fsRemove fs p) q = fsRead fs q := by
  induction fs with
  | nil => rfl
  | cons hd tl ih =>
    obtain ⟨a, d⟩ := hd
    by_cases hap : a = p
    · subst hap
      have haq : ¬ a = q := fun hh => h hh.symm
      simp [fsRemove, fsRead, haq, ih]
    · simp only [fsRemove, if_neg hap, fsRead]
      by_cases haq : a = q
      · simp [haq]
      · simp [haq, ih]

theorem fsRead_fsWrite_self (fs : FS) (p : Path) (d : FileData) :
    fsRead (fsWrite fs p d) p = some d := by
  simp [fsWrite, fsRead]

theorem fsRead_fsWrite_ne (fs : FS) (p : Path) (d : FileData) (q : Path) (h : q ≠ p) :
    fsRead (fsWrite fs p d) q = fsRead fs q := by
  have hpq : ¬ p = q := fun hh => h hh.symm
  simp [fsWrite, fsRead, hpq, fsRead_fsRemove_ne fs p q h]

theorem convert_exr_of_read_none (fs : FS) (p : Path) (flag : Bool)
    (h : fsRead fs p = none) :
    convert_exr_to_jpg fs p flag = (fs, [], Except.error ConvError.decodeError) := by
  unfold convert_exr_to_jpg
  rw [h]

theorem convert_exr_of_read_exr (fs : FS) (p : Path) (flag : Bool) (c : ExrContainer)
    (h : fsRead fs p = some (FileData.exrFile c)) :
    convert_exr_to_jpg fs p flag =
      if exrWellFormed c then
        ((if flag then fsRemove (fsWrite fs (jpgTarget p) (FileData.jpgRaster (exrRaster c))) p
          else fsWrite fs (jpgTarget p) (FileData.jpgRaster (exrRaster c))),
         [progressLine p], Except.ok (jpgTarget p))
      else (fs, [], Except.error ConvError.decodeError) := by
  unfold convert_exr_to_jpg
  rw [h]

theorem convert_exr_of_read_other (fs : FS) (p : Path) (flag : Bool) (d : FileData)
    (h : fsRead fs p = some d) (hd : ∀ c, d ≠ FileData.exrFile c) :
    convert_exr_to_jpg fs p flag = (fs, [], Except.error ConvError.decodeError) := by
  unfold convert_exr_to_jpg
  rw [h]
  cases d with
  | exrFile c => exact absurd rfl (hd c)
  | tifFile i => rfl
  | jpgRaster r => rfl
  | jpgImage i => rfl

theorem convert_tif_of_read_none (fs : FS) (p : Path) (flag : Bool)
    (h : fsRead fs p = none) :
    convert_tif_to_jpg fs p flag = (fs, [], Except.error ConvError.decodeError) := by
  unfold convert_tif_to_jpg
  rw [h]

theorem convert_tif_of_read_tif (fs : FS) (p : Path) (flag : Bool) (image0 : PilImage)
    (h : fsRead fs p = some (FileData.tifFile image0)) :
    convert_tif_to_jpg fs p flag =
      ((if flag then fsRemove (fsWrite fs (jpgTarget p) (FileData.jpgImage (tifToRGB image0))) p
        else fsWrite fs (jpgTarget p) (FileData.jpgImage (tifToRGB image0))),
       [progressLine p], Except.ok (jpgTarget p)) := by
  unfold convert_tif_to_jpg
  rw [h]

theorem convert_tif_of_read_other (fs : FS) (p : Path) (flag : Bool) (d : FileData)
    (h : fsRead fs p = some d) (hd : ∀ i, d ≠ FileData.tifFile i) :
    convert_tif_to_jpg fs p flag = (fs, [], Except.error ConvError.decodeError) := by
  unfold convert_tif_to_jpg
  rw [h]
  cases d with
  | tifFile i => exact absurd rfl (hd i)
  | exrFile c => rfl
  | jpgRaster r => rfl
  | jpgImage i => rfl

/-- Every successful EXR conversion comes from a well-formed container and
has the fully described output state. -/
theorem convert_exr_ok (fs : FS) (p : Path) (flag : Bool)
    (hk : ((convert_exr_to_jpg fs p flag).2.2).isOk = true) :
    ∃ c, fsRead fs p = some (FileData.exrFile c) ∧ exrWellFormed c = true ∧
      convert_exr_to_jpg fs p flag =
        ((if flag then fsRemove (fsWrite fs (jpgTarget p) (FileData.jpgRaster (exrRaster c))) p
          else fsWrite fs (jpgTarget p) (FileData.jpgRaster (exrRaster c))),
         [progressLine p], Except.ok (jpgTarget p)) := by
  cases h : fsRead fs p with
  | none => rw [convert_exr_of_read_none fs p flag h] at hk; simp [Except.isOk, Except.toBool] at hk
  | some d =>
    cases d with
    | exrFile c =>
      rw [convert_exr_of_read_exr fs p flag c h] at hk
      cases hw : exrWellFormed c with
      | false => rw [hw] at hk; simp [Except.isOk, Except.toBool] at hk
      | true =>
        refine ⟨c, rfl, hw, ?_⟩
        rw [convert_exr_of_read_exr fs p flag c h, hw]
        simp
    | tifFile i =>
      rw [convert_exr_of_read_other fs p flag _ h (by intro c hc; cases hc)] at hk
      simp [Except.isOk, Except.toBool] at hk
    | jpgRaster r =>
      rw [convert_exr_of_read_other fs p flag _ h (by intro c hc; cases hc)] at hk
      simp [Except.isOk, Except.toBool] at hk
    | jpgImage i =>
      rw [convert_exr_of_read_other fs p flag _ h (by intro c hc; cases hc)] at hk
      simp [Except.isOk, Except.toBool] at hk

/-- A failed EXR conversion raises before any write: the filesystem is
unchanged, nothing was printed. -/
theorem convert_exr_err (fs : FS) (p : Path) (flag : Bool)
    (hk : ((convert_exr_to_jpg fs p flag).2.2).isOk = false) :
    convert_exr_to_jpg fs p flag = (fs, [], Except.error ConvError.decodeError) := by
  cases h : fsRead fs p with
  | none => exact convert_exr_of_read_none fs p flag h
  | some d =>
    cases d with
    | exrFile c =>
      rw [convert_exr_of_read_exr fs p flag c h] at hk ⊢
      cases hw : exrWellFormed c with
      | false => simp
      | true => rw [hw] at hk; simp [Except.isOk, Except.toBool] at hk
    | tifFile i => exact convert_exr_of_read_other fs p flag _ h (by intro c hc; cases hc)
    | jpgRaster r => exact convert_exr_of_read_other fs p flag _ h (by intro c hc; cases hc)
    | jpgImage i => exact convert_exr_of_read_other fs p flag _ h (by intro c hc; cases hc)

/-- Every successful TIF conversion comes from a PIL-decodable source and
has the fully described output state. -/
theorem convert_tif_ok (fs : FS) (p : Path) (flag : Bool)
    (hk : ((convert_tif_to_jpg fs p flag).2.2).isOk = true) :
    ∃ image0, fsRead fs p = some (FileData.tifFile image0) ∧
      convert_tif_to_jpg fs p flag =
        ((if flag then fsRemove (fsWrite fs (jpgTarget p) (FileData.jpgImage (tifToRGB image0))) p
          else fsWrite fs (jpgTarget p) (FileData.jpgImage (tifToRGB image0))),
         [progressLine p], Except.ok (jpgTarget p)) := by
  cases h : fsRead fs p with
  | none => rw [convert_tif_of_read_none fs p flag h] at hk; simp [Except.isOk, Except.toBool] at hk
  | some d =>
    cases d with
    | tifFile i => exact ⟨i, rfl, convert_tif_of_read_tif fs p flag i h⟩
    | exrFile c =>
      rw [convert_tif_of_read_other fs p flag _ h (by intro i hi; cases hi)] at hk
      simp [Except.isOk, Except.toBool] at hk
    | jpgRaster r =>
      rw [convert_tif_of_read_other fs p flag _ h (by intro i hi; cases hi)] at hk
      simp [Except.isOk, Except.toBool] at hk
    | jpgImage i =>
      rw [convert_tif_of_read_other fs p flag _ h (by intro i hi; cases hi)] at hk
      simp [Except.isOk, Except.toBool] at hk

/-- A failed TIF conversion raises before any write. -/
theorem convert_tif_err (fs : FS) (p : Path) (flag : Bool)
    (hk : ((convert_tif_to_jpg fs p flag).2.2).isOk = false) :
    convert_tif_to_jpg fs p flag = (fs, [], Except.error ConvError.decodeError) := by
  cases h : fsRead fs p with
  | none => exact convert_tif_of_read_none fs p flag h
  | some d =>
    cases d with
    | tifFile i =>
      rw [convert_tif_of_read_tif fs p flag i h] at hk
      simp [Except.isOk, Except.toBool] at hk
    | exrFile c => exact convert_tif_of_read_other fs p flag _ h (by intro i hi; cases hi)
    | jpgRaster r => exact convert_tif_of_read_other fs p flag _ h (by intro i hi; cases hi)
    | jpgImage i => exact convert_tif_of_read_other fs p flag _ h (by intro i hi; cases hi)

theorem quantize_zero : quantize 0 = 0 := by
  unfold quantize astypeUint8 npClip255
  rw [zero_mul, max_self, min_eq_left (by norm_num : (0:ℚ) ≤ 255)]
  simp

theorem reshapeGrid_replicate_zero (n m k : ℕ) :
    ∀ row ∈ reshapeGrid n m (List.replicate k (0:ℚ)), ∀ x ∈ row, x = 0 := by
  intro row hrow x hx
  unfold reshapeGrid at hrow
  obtain ⟨i, hi, rfl⟩ := List.mem_map.mp hrow
  rw [List.drop_replicate, List.take_replicate] at hx
  exact List.eq_of_mem_replicate hx

theorem stackQuant_blue_zero (r g b : List (List ℚ))
    (hb : ∀ brow ∈ b, ∀ x ∈ brow, x = (0:ℚ)) :
    ∀ row ∈ stackQuant r g b, ∀ px ∈ row, px.2.2 = 0 := by
  intro row hrow px hpx
  unfold stackQuant at hrow
  obtain ⟨z, hz, rfl⟩ := List.mem_map.mp hrow
  obtain ⟨v, hv, rfl⟩ := List.mem_map.mp hpx
  have hzb := (List.of_mem_zip ((List.of_mem_zip hz).2)).2
  have hvb := (List.of_mem_zip ((List.of_mem_zip hv).2)).2
  have hv0 : v.2.2 = 0 := hb _ hzb _ hvb
  show quantize v.2.2 = 0
  rw [hv0, quantize_zero]

/-! Claim theorems. -/

/-- C5: for every source path, both converters derive the target path by
replacing the final extension of the source path with .jpg (the source
splits as root plus extension and the target is root plus .jpg, so the
extension is replaced, not appended to): img.exr targets img.jpg, img.tif
targets img.jpg; and each converter returns this computed target path. -/
theorem c5_target_extension_replaced :
    (∀ p r e, splitext p = (r, e) → p = r ++ e ∧ jpgTarget p = r ++ ".jpg") ∧
    jpgTarget "img.exr" = "img.jpg" ∧ jpgTarget "img.tif" = "img.jpg" ∧
    (∀ fs p flag, ((convert_exr_to_jpg fs p flag).2.2).isOk = true →
      (convert_exr_to_jpg fs p flag).2.2 = Except.ok (jpgTarget p)) ∧
    (∀ fs p flag, ((convert_tif_to_jpg fs p flag).2.2).isOk = true →
      (convert_tif_to_jpg fs p flag).2.2 = Except.ok (jpgTarget p)) := by
  refine ⟨fun p r e h => jpgTarget_of_splitext p r e h, by decide, by decide, ?_, ?_⟩
  · intro fs p flag hk
    obtain ⟨c, _, _, heq⟩ := convert_exr_ok fs p flag hk
    rw [heq]
  · intro fs p flag hk
    obtain ⟨i, _, heq⟩ := convert_tif_ok fs p flag hk
    rw [heq]

/-- Witness for c5: the splitting of img.exr, and both converters applied
to concrete one-file filesystems. -/
theorem c5_target_extension_replaced_witness :
    ("img.exr" = "img" ++ ".exr" ∧ jpgTarget "img.exr" = "img" ++ ".jpg") ∧
    (convert_tif_to_jpg [("a.tif", FileData.tifFile tifRgb)] "a.tif" false).2.2 =
      Except.ok (jpgTarget "a.tif") ∧
    (convert_exr_to_jpg [("a.exr", FileData.exrFile cFull)] "a.exr" false).2.2 =
      Except.ok (jpgTarget "a.exr") := by
  refine ⟨c5_target_extension_replaced.1 "img.exr" "img" ".exr" (by decide), ?_, ?_⟩
  · exact c5_target_extension_replaced.2.2.2.2 _ "a.tif" false (by decide)
  · exact c5_target_extension_replaced.2.2.2.1 _ "a.exr" false (by decide)

/-- C6 counterexample: a source already carrying the .jpg extension
converts successfully with removeOriginal true, yet afterwards the target
path does not exist, because the deletion of the source removed the
just-written target (the two paths coincide).  This refutes the claim as
universally stated. -/
theorem c6_counterexample_target_deleted :
    ((convert_tif_to_jpg [("img.jpg", FileData.tifFile tifRgb)] "img.jpg" true).2.2).isOk
        = true ∧
    jpgTarget "img.jpg" = "img.jpg" ∧
    fsRead (convert_tif_to_jpg [("img.jpg", FileData.tifFile tifRgb)] "img.jpg" true).1
      (jpgTarget "img.jpg") = none := by
  decide

/-- C6 amended: for either converter with removeOriginal true, when the
conversion succeeds and the derived target differs from the source path,
the source is deleted only after the target was written, so afterwards the
source path no longer exists and the target path exists; when the
conversion fails (always before the write), the filesystem is unchanged,
so the source still exists. -/
theorem c6_delete_after_write_amended :
    (∀ fs p, ((convert_exr_to_jpg fs p true).2.2).isOk = true → jpgTarget p ≠ p →
      fsRead (convert_exr_to_jpg fs p true).1 p = none ∧
      (fsRead (convert_exr_to_jpg fs p true).1 (jpgTarget p)).isSome = true) ∧
    (∀ fs p, ((convert_tif_to_jpg fs p true).2.2).isOk = true → jpgTarget p ≠ p →
      fsRead (convert_tif_to_jpg fs p true).1 p = none ∧
      (fsRead (convert_tif_to_jpg fs p true).1 (jpgTarget p)).isSome = true) ∧
    (∀ fs p flag, ((convert_exr_to_jpg fs p flag).2.2).isOk = false →
      (convert_exr_to_jpg fs p flag).1 = fs) ∧
    (∀ fs p flag, ((convert_tif_to_jpg fs p flag).2.2).isOk = false →
      (convert_tif_to_jpg fs p flag).1 = fs) := by
  refine ⟨?_, ?_, ?_, ?_⟩
  · intro fs p hk hne
    obtain ⟨c, hread, hw, heq⟩ := convert_exr_ok fs p true hk
    rw [heq]
    have h1 := fsRead_fsRemove_ne
      (fsWrite fs (jpgTarget p) (FileData.jpgRaster (exrRaster c))) p (jpgTarget p) hne
    constructor
    · simp [fsRead_fsRemove_self]
    · simp [h1, fsRead_fsWrite_self]
  · intro fs p hk hne
    obtain ⟨i, hread, heq⟩ := convert_tif_ok fs p true hk
    rw [heq]
    have h1 := fsRead_fsRemove_ne
      (fsWrite fs (jpgTarget p) (FileData.jpgImage (tifToRGB i))) p (jpgTarget p) hne
    constructor
    · simp [fsRead_fsRemove_self]
    · simp [h1, fsRead_fsWrite_self]
  · intro fs p flag hk
    rw [convert_exr_err fs p flag hk]
  · intro fs p flag hk
    rw [convert_tif_err fs p flag hk]

/-- Witness for the amended c6: an EXR source whose target differs, and a
failing conversion on an empty filesystem. -/
theorem c6_delete_after_write_amended_witness :
    (fsRead (convert_exr_to_jpg [("a.exr", FileData.exrFile cFull)] "a.exr" true).1 "a.exr"
        = none ∧
      (fsRead (convert_exr_to_jpg [("a.exr", FileData.exrFile cFull)] "a.exr" true).1
        (jpgTarget "a.exr")).isSome = true) ∧
    (convert_tif_to_jpg [] "b.tif" false).1 = [] := by
  refine ⟨c6_delete_after_write_amended.1 _ "a.exr" (by decide) (by decide), ?_⟩
  exact c6_delete_after_write_amended.2.2.2 [] "b.tif" false (by decide)

/-- C9: with removeOriginal false, which is the Python default of both
converters, the source is never deleted: every path other than the written
target is unchanged (on success and on failure alike), and after a
successful conversion both the source path and the target path exist. -/
theorem c9_default_no_removal :
    removeOriginalDefault = false ∧
    (∀ fs p q, q ≠ jpgTarget p → fsRead (convert_exr_to_jpg fs p false).1 q = fsRead fs q) ∧
    (∀ fs p q, q ≠ jpgTarget p → fsRead (convert_tif_to_jpg fs p false).1 q = fsRead fs q) ∧
    (∀ fs p, ((convert_exr_to_jpg fs p false).2.2).isOk = true →
      (fsRead (convert_exr_to_jpg fs p false).1 p).isSome = true ∧
      (fsRead (convert_exr_to_jpg fs p false).1 (jpgTarget p)).isSome = true) ∧
    (∀ fs p, ((convert_tif_to_jpg fs p false).2.2).isOk = true →
      (fsRead (convert_tif_to_jpg fs p false).1 p).isSome = true ∧
      (fsRead (convert_tif_to_jpg fs p false).1 (jpgTarget p)).isSome = true) := by
  refine ⟨rfl, ?_, ?_, ?_, ?_⟩
  · intro fs p q hq
    cases hk : ((convert_exr_to_jpg fs p false).2.2).isOk with
    | false => rw [convert_exr_err fs p false hk]
    | true =>
      obtain ⟨c, hread, hw, heq⟩ := convert_exr_ok fs p false hk
      rw [heq]
      simp [fsRead_fsWrite_ne _ _ _ _ hq]
  · intro fs p q hq
    cases hk : ((convert_tif_to_jpg fs p false).2.2).isOk with
    | false => rw [convert_tif_err fs p false hk]
    | true =>
      obtain ⟨i, hread, heq⟩ := convert_tif_ok fs p false hk
      rw [heq]
      simp [fsRead_fsWrite_ne _ _ _ _ hq]
  · intro fs p hk
    obtain ⟨c, hread, hw, heq⟩ := convert_exr_ok fs p false hk
    rw [heq]
    constructor
    · by_cases hpt : p = jpgTarget p
      · rw [← hpt]
        simp [fsRead_fsWrite_self]
      · simp [fsRead_fsWrite_ne _ _ _ _ hpt, hread]
    · simp [fsRead_fsWrite_self]
  · intro fs p hk
    obtain ⟨i, hread, heq⟩ := convert_tif_ok fs p false hk
    rw [heq]
    constructor
    · by_cases hpt : p = jpgTarget p
      · rw [← hpt]
        simp [fsRead_fsWrite_self]
      · simp [fsRead_fsWrite_ne _ _ _ _ hpt, hread]
    · simp [fsRead_fsWrite_self]

/-- Witness for c9: a successful TIF conversion with the flag off keeps
the source and an unrelated path untouched while creating the target. -/
theorem c9_default_no_removal_witness :
    fsRead (convert_tif_to_jpg [("a.tif", FileData.tifFile tifAlpha)] "a.tif" false).1 "other.txt"
        = fsRead [("a.tif", FileData.tifFile tifAlpha)] "other.txt" ∧
    (fsRead (convert_tif_to_jpg [("a.tif", FileData.tifFile tifAlpha)] "a.tif" false).1
        "a.tif").isSome = true ∧
    (fsRead (convert_tif_to_jpg [("a.tif", FileData.tifFile tifAlpha)] "a.tif" false).1
        (jpgTarget "a.tif")).isSome = true := by
  refine ⟨c9_default_no_removal.2.2.1 _ "a.tif" "other.txt" (by decide), ?_⟩
  exact c9_default_no_removal.2.2.2.2 _ "a.tif" (by decide)

/-- C10: when the final extension of the source is already .jpg the
derived target equals the source, so the conversion overwrites the source
in place; with removeOriginal true the deletion step then removes the
just-written target, leaving neither source nor output on disk. -/
theorem c10_jpg_source_overwritten_then_deleted :
    (∀ p, (splitext p).2 = ".jpg" → jpgTarget p = p) ∧
    (∀ fs p, (splitext p).2 = ".jpg" →
      ((convert_exr_to_jpg fs p true).2.2).isOk = true →
      fsRead (convert_exr_to_jpg fs p true).1 p = none ∧
      fsRead (convert_exr_to_jpg fs p true).1 (jpgTarget p) = none) ∧
    (∀ fs p, (splitext p).2 = ".jpg" →
      ((convert_tif_to_jpg fs p true).2.2).isOk = true →
      fsRead (convert_tif_to_jpg fs p true).1 p = none ∧
      fsRead (convert_tif_to_jpg fs p true).1 (jpgTarget p) = none) := by
  refine ⟨jpgTarget_of_ext_jpg, ?_, ?_⟩
  · intro fs p hext hk
    obtain ⟨c, hread, hw, heq⟩ := convert_exr_ok fs p true hk
    constructor
    · rw [heq]
      simp [fsRead_fsRemove_self]
    · rw [jpgTarget_of_ext_jpg p hext, heq]
      simp [fsRead_fsRemove_self]
  · intro fs p hext hk
    obtain ⟨i, hread, heq⟩ := convert_tif_ok fs p true hk
    constructor
    · rw [heq]
      simp [fsRead_fsRemove_self]
    · rw [jpgTarget_of_ext_jpg p hext, heq]
      simp [fsRead_fsRemove_self]

/-- C3: an EXR input whose data window bounds are degenerate (width or
height computed as max - min + 1 is not positive) makes the converter
fail with a decode error (raised by the header sanity check of the
library at open time) and leave the filesystem unchanged, so no target
file is produced. -/
theorem c3_degenerate_window_decode_error :
    ∀ fs p flag c, fsRead fs p = some (FileData.exrFile c) →
      (exrWidth c ≤ 0 ∨ exrHeight c ≤ 0) →
      convert_exr_to_jpg fs p flag = (fs, [], Except.error ConvError.decodeError) := by
  intro fs p flag c hread hdeg
  have hw : exrWellFormed c = false := by
    rcases hdeg with h | h
    · have hd : decide (0 < exrWidth c) = false := decide_eq_false (not_lt.mpr h)
      simp [exrWellFormed, hd]
    · have hd : decide (0 < exrHeight c) = false := decide_eq_false (not_lt.mpr h)
      simp [exrWellFormed, hd]
  rw [convert_exr_of_read_exr fs p flag c hread, hw]
  simp

/-- Witness for c3: a container whose data window has maxX = minX - 1. -/
theorem c3_degenerate_window_decode_error_witness :
    convert_exr_to_jpg [("bad.exr", FileData.exrFile cDeg)] "bad.exr" false
      = ([("bad.exr", FileData.exrFile cDeg)], [], Except.error ConvError.decodeError) :=
  c3_degenerate_window_decode_error _ "bad.exr" false cDeg (by decide) (by decide)

/-- C4: for every required channel name s (one of R, G, B) absent from
the channel list of the file, the converter synthesizes a zero-filled
buffer of length width * height for that channel instead of failing (the
conversion succeeds); in particular, when the absent channel is B, every
pixel of the produced raster has blue component 0. -/
theorem c4_missing_channel_black :
    ∀ fs p flag c s, fsRead fs p = some (FileData.exrFile c) → exrWellFormed c = true →
      (s = "R" ∨ s = "G" ∨ s = "B") →
      s ∉ c.channels.map Prod.fst →
      exrChannelBuf c s = List.replicate ((exrWidth c).toNat * (exrHeight c).toNat) 0 ∧
      (convert_exr_to_jpg fs p flag).2.2 = Except.ok (jpgTarget p) ∧
      ("B" ∉ c.channels.map Prod.fst → ∀ row ∈ exrRaster c, ∀ px ∈ row, px.2.2 = 0) := by
  intro fs p flag c s hread hw _ hs
  have hfind : c.channels.find? (fun e => e.1 == s) = none := by
    rw [List.find?_eq_none]
    intro e he hbeq
    exact hs (List.mem_map.mpr ⟨e, he, eq_of_beq hbeq⟩)
  have hbuf : exrChannelBuf c s
      = List.replicate ((exrWidth c).toNat * (exrHeight c).toNat) 0 := by
    unfold exrChannelBuf
    rw [hfind]
  refine ⟨hbuf, ?_, ?_⟩
  · rw [convert_exr_of_read_exr fs p flag c hread, hw]
    simp
  · intro hB
    have hfindB : c.channels.find? (fun e => e.1 == "B") = none := by
      rw [List.find?_eq_none]
      intro e he hbeq
      exact hB (List.mem_map.mpr ⟨e, he, eq_of_beq hbeq⟩)
    have hbufB : exrChannelBuf c "B"
        = List.replicate ((exrWidth c).toNat * (exrHeight c).toNat) 0 := by
      unfold exrChannelBuf
      rw [hfindB]
    have hb : ∀ brow ∈ reshapeGrid (exrWidth c).toNat (exrHeight c).toNat (exrChannelBuf c "B"),
        ∀ x ∈ brow, x = (0:ℚ) := by
      rw [hbufB]
      exact reshapeGrid_replicate_zero _ _ _
    intro row hrow px hpx
    have hrow2 : row ∈ stackQuant
        (reshapeGrid (exrWidth c).toNat (exrHeight c).toNat (exrChannelBuf c "R"))
        (reshapeGrid (exrWidth c).toNat (exrHeight c).toNat (exrChannelBuf c "G"))
        (reshapeGrid (exrWidth c).toNat (exrHeight c).toNat (exrChannelBuf c "B")) := by
      simpa [exrRaster] using hrow
    exact stackQuant_blue_zero _ _ _ hb row hrow2 px hpx

/-- Witness for c4 at each of the three channel names: R absent from
cOnlyG, G absent from cOnlyR, B absent from cNoB; the B case also shows
the successful conversion and the all-black blue plane. -/
theorem c4_missing_channel_black_witness :
    exrChannelBuf cOnlyG "R"
        = List.replicate ((exrWidth cOnlyG).toNat * (exrHeight cOnlyG).toNat) 0 ∧
    exrChannelBuf cOnlyR "G"
        = List.replicate ((exrWidth cOnlyR).toNat * (exrHeight cOnlyR).toNat) 0 ∧
    exrChannelBuf cNoB "B"
        = List.replicate ((exrWidth cNoB).toNat * (exrHeight cNoB).toNat) 0 ∧
    (convert_exr_to_jpg [("b.exr", FileData.exrFile cNoB)] "b.exr" false).2.2
        = Except.ok (jpgTarget "b.exr") ∧
    (∀ row ∈ exrRaster cNoB, ∀ px ∈ row, px.2.2 = 0) := by
  have hR := c4_missing_channel_black [("g.exr", FileData.exrFile cOnlyG)] "g.exr" false
    cOnlyG "R" (by decide) (by decide) (by decide) (by decide)
  have hG := c4_missing_channel_black [("r.exr", FileData.exrFile cOnlyR)] "r.exr" false
    cOnlyR "G" (by decide) (by decide) (by decide) (by decide)
  have hB := c4_missing_channel_black [("b.exr", FileData.exrFile cNoB)] "b.exr" false
    cNoB "B" (by decide) (by decide) (by decide) (by decide)
  exact ⟨hR.1, hG.1, hB.1, hB.2.1, hB.2.2 (by decide)⟩

/-- Witness for c10: a TIF-decodable file named img.jpg converted in
place with removal. -/
theorem c10_jpg_source_overwritten_then_deleted_witness :
    jpgTarget "img.jpg" = "img.jpg" ∧
    fsRead (convert_tif_to_jpg [("img.jpg", FileData.tifFile tifAlpha)] "img.jpg" true).1
      "img.jpg" = none := by
  refine ⟨c10_jpg_source_overwritten_then_deleted.1 "img.jpg" (by decide), ?_⟩
  exact (c10_jpg_source_overwritten_then_deleted.2.2 _ "img.jpg" (by decide) (by decide)).1

/-- C8: a decoded TIF not in 3-channel RGB mode is converted to RGB by the
standard conversion of the decoding library before encoding, an input
already in RGB mode is saved unchanged (no mode conversion), and in both
cases the conversion succeeds, writing a 3-channel (RGB mode) JPG. -/
theorem c8_tif_rgb_mode :
    ∀ fs p flag image0, fsRead fs p = some (FileData.tifFile image0) →
      (convert_tif_to_jpg fs p flag).2.2 = Except.ok (jpgTarget p) ∧
      (tifToRGB image0).mode = PilMode.RGB ∧
      (image0.mode = PilMode.RGB → tifToRGB image0 = image0) ∧
      (image0.mode ≠ PilMode.RGB → tifToRGB image0 = pilConvertRGB image0) ∧
      (convert_tif_to_jpg fs p flag).1 =
        (if flag then fsRemove (fsWrite fs (jpgTarget p) (FileData.jpgImage (tifToRGB image0))) p
         else fsWrite fs (jpgTarget p) (FileData.jpgImage (tifToRGB image0))) := by
  intro fs p flag image0 hread
  have heq := convert_tif_of_read_tif fs p flag image0 hread
  refine ⟨by rw [heq], ?_, ?_, ?_, by rw [heq]⟩
  · by_cases hm : image0.mode = PilMode.RGB
    · simp [tifToRGB, hm]
    · simp [tifToRGB, hm, pilConvertRGB]
  · intro hm
    simp [tifToRGB, hm]
  · intro hm
    simp [tifToRGB, hm]

/-- Witness for c8: an alpha-bearing TIF is flattened to RGB, a TIF
already in RGB mode is saved as is. -/
theorem c8_tif_rgb_mode_witness :
    (convert_tif_to_jpg [("a.tif", FileData.tifFile tifAlpha)] "a.tif" false).2.2
        = Except.ok (jpgTarget "a.tif") ∧
    (tifToRGB tifAlpha).mode = PilMode.RGB ∧
    tifToRGB tifAlpha = pilConvertRGB tifAlpha ∧
    tifToRGB tifRgb = tifRgb := by
  have h1 := c8_tif_rgb_mode [("a.tif", FileData.tifFile tifAlpha)] "a.tif" false tifAlpha
    (by decide)
  have h2 := c8_tif_rgb_mode [("b.tif", FileData.tifFile tifRgb)] "b.tif" false tifRgb
    (by decide)
  exact ⟨h1.1, h1.2.1, h1.2.2.2.1 (by decide), h2.2.2.1 (by decide)⟩

theorem convertOne_ok_shape (st : SrcType) (fs : FS) (p : Path) (flag : Bool)
    (fs1 : FS) (lg : List String) (r : Path)
    (h : convertOne st fs p flag = (fs1, lg, Except.ok r)) : lg = [progressLine p] := by
  cases st with
  | exr =>
    have h1 : convert_exr_to_jpg fs p flag = (fs1, lg, Except.ok r) := h
    have hk : ((convert_exr_to_jpg fs p flag).2.2).isOk = true := by
      rw [h1]
      rfl
    obtain ⟨c, _, _, heq⟩ := convert_exr_ok fs p flag hk
    rw [h1] at heq
    simp only [Prod.mk.injEq] at heq
    exact heq.2.1
  | tif =>
    have h1 : convert_tif_to_jpg fs p flag = (fs1, lg, Except.ok r) := h
    have hk : ((convert_tif_to_jpg fs p flag).2.2).isOk = true := by
      rw [h1]
      rfl
    obtain ⟨i, _, heq⟩ := convert_tif_ok fs p flag hk
    rw [h1] at heq
    simp only [Prod.mk.injEq] at heq
    exact heq.2.1

theorem convertOne_err_shape (st : SrcType) (fs : FS) (p : Path) (flag : Bool)
    (fsE : FS) (logE : List String) (e : ConvError)
    (h : convertOne st fs p flag = (fsE, logE, Except.error e)) : fsE = fs ∧ logE = [] := by
  cases st with
  | exr =>
    have h1 : convert_exr_to_jpg fs p flag = (fsE, logE, Except.error e) := h
    have hk : ((convert_exr_to_jpg fs p flag).2.2).isOk = false := by
      rw [h1]
      rfl
    have heq := convert_exr_err fs p flag hk
    rw [h1] at heq
    simp only [Prod.mk.injEq] at heq
    exact ⟨heq.1, heq.2.1⟩
  | tif =>
    have h1 : convert_tif_to_jpg fs p flag = (fsE, logE, Except.error e) := h
    have hk : ((convert_tif_to_jpg fs p flag).2.2).isOk = false := by
      rw [h1]
      rfl
    have heq := convert_tif_err fs p flag hk
    rw [h1] at heq
    simp only [Prod.mk.injEq] at heq
    exact ⟨heq.1, heq.2.1⟩

theorem runFiles_none_log (st : SrcType) (flag : Bool) :
    ∀ l fs fs1 log1, runFiles st flag fs l = (fs1, log1, none) →
      log1 = List.map progressLine l := by
  intro l
  induction l with
  | nil =>
    intro fs fs1 log1 h
    simp only [runFiles, Prod.mk.injEq] at h
    simp [← h.2.1]
  | cons p rest ih =>
    intro fs fs1 log1 h
    unfold runFiles at h
    rcases hc : convertOne st fs p flag with ⟨fsA, logA, resA⟩
    rw [hc] at h
    cases resA with
    | error e => simp at h
    | ok r =>
      dsimp only at h
      rcases hr : runFiles st flag fsA rest with ⟨fsB, logB, errB⟩
      rw [hr] at h
      dsimp only at h
      simp only [Prod.mk.injEq] at h
      obtain ⟨-, hlog, herr⟩ := h
      rw [herr] at hr
      rw [← hlog, convertOne_ok_shape st fs p flag fsA logA r hc, ih fsA fsB logB hr]
      rfl

theorem runFiles_abort (st : SrcType) (flag : Bool) :
    ∀ l1 fs fs1 log1 p l2 fsE logE e,
      runFiles st flag fs l1 = (fs1, log1, none) →
      convertOne st fs1 p flag = (fsE, logE, Except.error e) →
      runFiles st flag fs (l1 ++ p :: l2) = (fsE, log1 ++ logE, some e) := by
  intro l1
  induction l1 with
  | nil =>
    intro fs fs1 log1 p l2 fsE logE e h hc
    simp only [runFiles, Prod.mk.injEq] at h
    obtain ⟨h1, h2, -⟩ := h
    rw [← h1] at hc
    rw [← h2]
    show runFiles st flag fs (p :: l2) = (fsE, [] ++ logE, some e)
    unfold runFiles
    rw [hc]
    rfl
  | cons q rest ih =>
    intro fs fs1 log1 p l2 fsE logE e h hc
    unfold runFiles at h
    rcases hq : convertOne st fs q flag with ⟨fsA, logA, resA⟩
    rw [hq] at h
    cases resA with
    | error e0 => simp at h
    | ok r0 =>
      dsimp only at h
      rcases hr : runFiles st flag fsA rest with ⟨fsB, logB, errB⟩
      rw [hr] at h
      dsimp only at h
      simp only [Prod.mk.injEq] at h
      obtain ⟨hfs, hlog, herr⟩ := h
      rw [herr] at hr
      rw [hfs] at hr
      have hrec := ih fsA fs1 logB p l2 fsE logE e hr hc
      show runFiles st flag fs (q :: (rest ++ p :: l2)) = (fsE, log1 ++ logE, some e)
      unfold runFiles
      rw [hq]
      dsimp only
      rw [hrec]
      dsimp only
      rw [← hlog, List.append_assoc]

/-- C7: the batch loop of run processes the selected files one at a time
in selection order, emitting exactly one progress line per converted file
in that order; no conversion error is caught, so the first error aborts
the batch with the earlier files converted and the later files never
processed. -/
theorem c7_batch_order_and_abort :
    (∀ st flag fs l fs1 log1, runFiles st flag fs l = (fs1, log1, none) →
      log1 = List.map progressLine l) ∧
    (∀ st flag fs l1 fs1 log1 p l2 fsE logE e,
      runFiles st flag fs l1 = (fs1, log1, none) →
      convertOne st fs1 p flag = (fsE, logE, Except.error e) →
      runFiles st flag fs (l1 ++ p :: l2) = (fsE, log1 ++ logE, some e) ∧
        fsE = fs1 ∧ logE = []) ∧
    (∀ st flag fs files, run st flag fs files =
      ((runFiles st flag fs files).1,
       "\n Converting images:" :: (runFiles st flag fs files).2.1,
       (runFiles st flag fs files).2.2)) := by
  refine ⟨fun st flag fs l => runFiles_none_log st flag l fs, ?_, ?_⟩
  · intro st flag fs l1 fs1 log1 p l2 fsE logE e h hc
    obtain ⟨hfs, hlog⟩ := convertOne_err_shape st fs1 p flag fsE logE e hc
    exact ⟨runFiles_abort st flag l1 fs fs1 log1 p l2 fsE logE e h hc, hfs, hlog⟩
  · intro st flag fs files
    unfold run
    rcases h : runFiles st flag fs files with ⟨a, b, c⟩
    rfl

/-- Witness for c7: a two-entry batch where the second file is missing, so
its conversion fails and the third file is never processed. -/
theorem c7_batch_order_and_abort_witness :
    [progressLine "a.tif"] = List.map progressLine ["a.tif"] ∧
    runFiles SrcType.tif false fsBatch (["a.tif"] ++ "missing.tif" :: ["c.tif"])
        = (fsBatch1, [progressLine "a.tif"] ++ [], some ConvError.decodeError) ∧
    run SrcType.tif false fsBatch ["a.tif"] =
      ((runFiles SrcType.tif false fsBatch ["a.tif"]).1,
       "\n Converting images:" :: (runFiles SrcType.tif false fsBatch ["a.tif"]).2.1,
       (runFiles SrcType.tif false fsBatch ["a.tif"]).2.2) := by
  refine ⟨?_, ?_, c7_batch_order_and_abort.2.2 SrcType.tif false fsBatch ["a.tif"]⟩
  · exact c7_batch_order_and_abort.1 SrcType.tif false fsBatch ["a.tif"] fsBatch1
      [progressLine "a.tif"] (by decide)
  · exact (c7_batch_order_and_abort.2.1 SrcType.tif false fsBatch ["a.tif"] fsBatch1
      [progressLine "a.tif"] "missing.tif" ["c.tif"] fsBatch1 [] ConvError.decodeError
      (by decide) (by decide)).1

/-- C1 refutation at a concrete input: on the 2 by 1 EXR cWide (width 2,
height 1) the code builds the raster by reshaping each flat buffer with
reshape(size) where size = (width, height), producing 2 rows of 1 pixel,
shape (width, height, 3); the claimed shape height by width by 3 would be
1 row of 2 pixels. -/
theorem c1_reshape_swaps_width_height :
    exrWidth cWide = 2 ∧ exrHeight cWide = 1 ∧
    (exrRaster cWide).length = 2 ∧ (∀ row ∈ exrRaster cWide, row.length = 1) := by
  refine ⟨by decide, by decide, by decide, by decide⟩

theorem minmax_clip_comm (v : ℚ) : min (max v 0) 255 = max 0 (min v 255) := by
  rcases le_total v 0 with h | h
  · rw [max_eq_right h, min_eq_left (by norm_num : (0:ℚ) ≤ 255),
      min_eq_left (h.trans (by norm_num : (0:ℚ) ≤ 255)), max_eq_left h]
  · rcases le_total v 255 with h2 | h2
    · rw [max_eq_left h, min_eq_left h2, max_eq_right h]
    · rw [max_eq_left h, min_eq_right h2, max_eq_right (by norm_num : (0:ℚ) ≤ 255)]

theorem quantize_eq_spec (x : ℚ) : quantize x = specQuantC2 x := by
  unfold quantize specQuantC2 astypeUint8 npClip255
  rw [minmax_clip_comm]

theorem quantize_le_255 (x : ℚ) : quantize x ≤ 255 := by
  unfold quantize astypeUint8 npClip255
  have h1 : ⌊min (max (x * 255) 0) 255⌋ ≤ (255 : ℤ) := by
    calc ⌊min (max (x * 255) 0) 255⌋ ≤ ⌊(255:ℚ)⌋ := Int.floor_le_floor (min_le_right _ _)
      _ = 255 := by norm_num
  exact Int.toNat_le.mpr h1

theorem exrChannelBuf_length (c : ExrContainer) (hw : exrWellFormed c = true) (s : String) :
    (exrChannelBuf c s).length = (exrWidth c).toNat * (exrHeight c).toNat := by
  unfold exrChannelBuf
  cases hf : c.channels.find? (fun e => e.1 == s) with
  | none => simp
  | some e =>
    have hmem := List.mem_of_find?_eq_some hf
    unfold exrWellFormed at hw
    simp only [Bool.and_eq_true] at hw
    exact eq_of_beq (List.all_eq_true.mp hw.2 e hmem)

theorem reshapeGrid_getElem? (n m : ℕ) (buf : List ℚ) (i : ℕ) (hi : i < n) :
    (reshapeGrid n m buf)[i]? = some ((buf.drop (i * m)).take m) := by
  simp [reshapeGrid, List.getElem?_map, List.getElem?_range hi]

theorem slice_getElem? (buf : List ℚ) (i m j : ℕ) (hj : j < m) :
    ((buf.drop (i * m)).take m)[j]? = buf[i * m + j]? := by
  rw [List.getElem?_take_of_lt hj, List.getElem?_drop]

theorem stackQuant_getElem? (r g b : List (List ℚ)) (i : ℕ)
    (rR rG rB : List ℚ) (hr : r[i]? = some rR) (hg : g[i]? = some rG) (hb : b[i]? = some rB) :
    (stackQuant r g b)[i]? =
      some ((rR.zip (rG.zip rB)).map (fun v => (quantize v.1, quantize v.2.1, quantize v.2.2))) := by
  unfold stackQuant
  rw [List.getElem?_map]
  have hz : (g.zip b)[i]? = some (rG, rB) := List.getElem?_zip_eq_some.mpr ⟨hg, hb⟩
  have hz2 : (r.zip (g.zip b))[i]? = some (rR, (rG, rB)) := List.getElem?_zip_eq_some.mpr ⟨hr, hz⟩
  rw [hz2]
  rfl

/-- C2: the quantization of the code (np.clip(x * 255, 0, 255) followed by
uint8 truncation) equals the formula of the spec, floor(clamp(x * 255, 0,
255)), fitting an unsigned 8-bit integer; and the 8-bit sample at row i,
column j of the in-memory target raster is exactly that function of the
corresponding float sample (at flat index i * height + j) of each of the
three channel buffers. -/
theorem c2_quantize_floor_clamp :
    (∀ x : ℚ, quantize x = specQuantC2 x ∧ quantize x ≤ 255) ∧
    (∀ c i j, exrWellFormed c = true →
      i < (exrWidth c).toNat → j < (exrHeight c).toNat →
      ((exrRaster c).getD i []).getD j (0, 0, 0) =
        (specQuantC2 ((exrChannelBuf c "R").getD (i * (exrHeight c).toNat + j) 0),
         specQuantC2 ((exrChannelBuf c "G").getD (i * (exrHeight c).toNat + j) 0),
         specQuantC2 ((exrChannelBuf c "B").getD (i * (exrHeight c).toNat + j) 0))) := by
  refine ⟨fun x => ⟨quantize_eq_spec x, quantize_le_255 x⟩, ?_⟩
  intro c i j hw hi hj
  have hlR := exrChannelBuf_length c hw "R"
  have hlG := exrChannelBuf_length c hw "G"
  have hlB := exrChannelBuf_length c hw "B"
  have hidx : i * (exrHeight c).toNat + j < (exrWidth c).toNat * (exrHeight c).toNat := by
    calc i * (exrHeight c).toNat + j < (i + 1) * (exrHeight c).toNat := by
          rw [Nat.add_mul, Nat.one_mul]
          omega
      _ ≤ (exrWidth c).toNat * (exrHeight c).toNat := Nat.mul_le_mul_right _ hi
  obtain ⟨x, hx⟩ : ∃ x, (exrChannelBuf c "R")[i * (exrHeight c).toNat + j]? = some x := by
    rw [List.getElem?_eq_getElem (by rw [hlR]; exact hidx)]
    exact ⟨_, rfl⟩
  obtain ⟨y, hy⟩ : ∃ y, (exrChannelBuf c "G")[i * (exrHeight c).toNat + j]? = some y := by
    rw [List.getElem?_eq_getElem (by rw [hlG]; exact hidx)]
    exact ⟨_, rfl⟩
  obtain ⟨z, hz⟩ : ∃ z, (exrChannelBuf c "B")[i * (exrHeight c).toNat + j]? = some z := by
    rw [List.getElem?_eq_getElem (by rw [hlB]; exact hidx)]
    exact ⟨_, rfl⟩
  have hre : exrRaster c = stackQuant
      (reshapeGrid (exrWidth c).toNat (exrHeight c).toNat (exrChannelBuf c "R"))
      (reshapeGrid (exrWidth c).toNat (exrHeight c).toNat (exrChannelBuf c "G"))
      (reshapeGrid (exrWidth c).toNat (exrHeight c).toNat (exrChannelBuf c "B")) := rfl
  have hrast := stackQuant_getElem?
    (reshapeGrid (exrWidth c).toNat (exrHeight c).toNat (exrChannelBuf c "R"))
    (reshapeGrid (exrWidth c).toNat (exrHeight c).toNat (exrChannelBuf c "G"))
    (reshapeGrid (exrWidth c).toNat (exrHeight c).toNat (exrChannelBuf c "B")) i
    (((exrChannelBuf c "R").drop (i * (exrHeight c).toNat)).take (exrHeight c).toNat)
    (((exrChannelBuf c "G").drop (i * (exrHeight c).toNat)).take (exrHeight c).toNat)
    (((exrChannelBuf c "B").drop (i * (exrHeight c).toNat)).take (exrHeight c).toNat)
    (reshapeGrid_getElem? _ _ _ i hi) (reshapeGrid_getElem? _ _ _ i hi)
    (reshapeGrid_getElem? _ _ _ i hi)
  have hpixrow : ((((exrChannelBuf c "R").drop (i * (exrHeight c).toNat)).take
        (exrHeight c).toNat).zip
      (((((exrChannelBuf c "G").drop (i * (exrHeight c).toNat)).take (exrHeight c).toNat)).zip
        (((exrChannelBuf c "B").drop (i * (exrHeight c).toNat)).take (exrHeight c).toNat)))[j]?
      = some (x, (y, z)) := by
    refine List.getElem?_zip_eq_some.mpr ⟨?_, List.getElem?_zip_eq_some.mpr ⟨?_, ?_⟩⟩
    · rw [slice_getElem? _ i _ j hj]
      exact hx
    · rw [slice_getElem? _ i _ j hj]
      exact hy
    · rw [slice_getElem? _ i _ j hj]
      exact hz
  rw [List.getD_eq_getElem?_getD]
  rw [List.getD_eq_getElem?_getD]
  rw [hre, hrast, Option.getD_some]
  rw [List.getElem?_map, hpixrow, Option.map_some', Option.getD_some]
  show (quantize x, quantize y, quantize z) =
    (specQuantC2 ((exrChannelBuf c "R").getD (i * (exrHeight c).toNat + j) 0),
     specQuantC2 ((exrChannelBuf c "G").getD (i * (exrHeight c).toNat + j) 0),
     specQuantC2 ((exrChannelBuf c "B").getD (i * (exrHeight c).toNat + j) 0))
  rw [List.getD_eq_getElem?_getD, hx, Option.getD_some]
  rw [List.getD_eq_getElem?_getD, hy, Option.getD_some]
  rw [List.getD_eq_getElem?_getD, hz, Option.getD_some]
  rw [quantize_eq_spec x, quantize_eq_spec y, quantize_eq_spec z]

/-- Witness for c2: the quantization equality at sample 1 and the pixel
correspondence on the 1 by 1 container cFull. -/
theorem c2_quantize_floor_clamp_witness :
    (quantize 1 = specQuantC2 1 ∧ quantize 1 ≤ 255) ∧
    ((exrRaster cFull).getD 0 []).getD 0 (0, 0, 0) =
      (specQuantC2 ((exrChannelBuf cFull "R").getD (0 * (exrHeight cFull).toNat + 0) 0),
       specQuantC2 ((exrChannelBuf cFull "G").getD (0 * (exrHeight cFull).toNat + 0) 0),
       specQuantC2 ((exrChannelBuf cFull "B").getD (0 * (exrHeight cFull).toNat + 0) 0)) :=
  ⟨c2_quantize_floor_clamp.1 1,
   c2_quantize_floor_clamp.2 cFull 0 0 (by decide) (by decide) (by decide)⟩

end ConvertToJpg
